import Mathlib

/-
Verification of the data freshness pipeline and session/user store of the
Variant analytics dashboard (Dash version).

The Python sources are shallowly embedded:
  * the durable blob store (GCS bucket) becomes an explicit map
    `String → Option String` from blob path to blob content (bytes are
    modelled as `String`), threaded through every operation;
  * the remote warehouse client (`bigquery.Client().query(...).to_arrow()`)
    becomes a parameter `extract : String → Except String String` mapping a
    source locator to either an error (a raised exception) or the extracted
    table content; serialization (`to_arrow` / `to_pandas` /
    `save_parquet_to_gcs`) is content preserving and is modelled as the
    identity on the content;
  * instants become integers; "now" is passed explicitly;
  * module level mutable state (`_daedalus_cache`, `_users_cache`) becomes
    explicit state records passed in and returned.
-/

-- ===========================================================================
-- Blob store and in-memory cache state
-- ===========================================================================

deriving instance DecidableEq for Except

/-- Durable blob store: blob path to blob content. `none` means the blob
does not exist at that path. -/
def Blobs : Type := String → Option String

/-- Write a blob (upload_from_string): overwrites any prior content. -/
def putBlob (b : Blobs) (p v : String) : Blobs :=
  fun q => if q = p then some v else b q

/-- The in-memory materialized table cache `_daedalus_cache`:
table key to materialized content. -/
def Cache : Type := String → Option String

/-- Replace one slot of the materialized cache (whole-value swap). -/
def putCache (c : Cache) (k v : String) : Cache :=
  fun q => if q = k then some v else c q

-- ===========================================================================
-- Table configuration (data.py, DAEDALUS_TABLES)
-- ===========================================================================

/-- One registered Cache Table: key, remote source locator, active blob
path, staging blob path (data.py lines 26-42). -/
structure TableConfig where
  key : String
  bq : String
  active : String
  staging : String
deriving DecidableEq, Repr

def tblDaedalus : TableConfig :=
  { key := "daedalus"
  , bq := "variant-finance-data-project.Daedalus.Daedalus"
  , active := "daedalus_cache/daedalus_active.parquet"
  , staging := "daedalus_cache/daedalus_staging.parquet" }

def tblCacEntity : TableConfig :=
  { key := "cac_entity"
  , bq := "variant-finance-data-project.Daedalus.CAC_By_Entity"
  , active := "daedalus_cache/cac_entity_active.parquet"
  , staging := "daedalus_cache/cac_entity_staging.parquet" }

def tblActiveSubs : TableConfig :=
  { key := "active_subs"
  , bq := "variant-finance-data-project.Daedalus.Active_Subscriptions"
  , active := "daedalus_cache/active_subs_active.parquet"
  , staging := "daedalus_cache/active_subs_staging.parquet" }

/-- The registered tables, in dict iteration order (data.py lines 26-42). -/
def DAEDALUS_TABLES : List TableConfig :=
  [tblDaedalus, tblCacEntity, tblActiveSubs]

def GCS_DAEDALUS_BQ_REFRESH : String := "daedalus_cache/bq_last_refresh.txt"

def GCS_DAEDALUS_GCS_REFRESH : String := "daedalus_cache/gcs_last_refresh.txt"

-- ===========================================================================
-- refresh_daedalus_bq_to_staging (data.py lines 91-116)
-- ===========================================================================

/-- The for-loop of refresh_daedalus_bq_to_staging. The whole loop runs
inside one try block, so an extraction exception is NOT caught per table:
it aborts the loop, and the blobs written so far persist. Returns the final
blob store and either the number of staged tables or the first error. -/
def stageTables (extract : String → Except String String) (skip : List String) :
    List TableConfig → Blobs → Blobs × Except String Nat
  | [], b => (b, Except.ok 0)
  | t :: ts, b =>
    if t.key ∈ skip then stageTables extract skip ts b
    else
      match extract t.bq with
      | Except.error e => (b, Except.error e)
      | Except.ok content =>
        match stageTables extract skip ts (putBlob b t.staging content) with
        | (b2, Except.ok n) => (b2, Except.ok (n + 1))
        | (b2, Except.error e) => (b2, Except.error e)

/-- refresh_daedalus_bq_to_staging (data.py lines 91-116). `bucketOk` models
get_gcs_bucket() returning a usable bucket; `now` is the timestamp text
written by set_metadata_timestamp. On loop completion the BQ refresh
timestamp blob is written unconditionally (data.py line 113); an extraction
exception is converted by the except-clause into a failure message. -/
def refresh_daedalus_bq_to_staging (extract : String → Except String String)
    (bucketOk : Bool) (now : String) (skip : List String) (b : Blobs) :
    Blobs × Bool × String :=
  if bucketOk then
    match stageTables extract skip DAEDALUS_TABLES b with
    | (b2, Except.ok n) =>
      (putBlob b2 GCS_DAEDALUS_BQ_REFRESH now, true,
        "Daedalus BQ refresh complete (" ++ toString n ++ " tables).")
    | (b2, Except.error e) =>
      (b2, false, "Daedalus BQ refresh failed: " ++ e)
  else (b, false, "GCS bucket not configured")

-- ===========================================================================
-- refresh_daedalus_gcs_from_staging (data.py lines 119-143)
-- ===========================================================================

/-- The for-loop of refresh_daedalus_gcs_from_staging: for each table not
skipped, load the staging blob; if absent, continue; else copy it to the
active path and swap the materialized cache slot. Returns the final blob
store, cache, and the number of activated tables. -/
def promoteTables (skip : List String) :
    List TableConfig → Blobs → Cache → Blobs × Cache × Nat
  | [], b, c => (b, c, 0)
  | t :: ts, b, c =>
    if t.key ∈ skip then promoteTables skip ts b c
    else
      match b t.staging with
      | none => promoteTables skip ts b c
      | some content =>
        let r := promoteTables skip ts (putBlob b t.active content)
          (putCache c t.key content)
        (r.1, r.2.1, r.2.2 + 1)

/-- refresh_daedalus_gcs_from_staging (data.py lines 119-143). On loop
completion the GCS refresh timestamp blob is written unconditionally
(data.py line 140). -/
def refresh_daedalus_gcs_from_staging (bucketOk : Bool) (now : String)
    (skip : List String) (b : Blobs) (c : Cache) :
    Blobs × Cache × Bool × String :=
  if bucketOk then
    let r := promoteTables skip DAEDALUS_TABLES b c
    (putBlob r.1 GCS_DAEDALUS_GCS_REFRESH now, r.2.1, true,
      "Daedalus GCS refresh complete (" ++ toString r.2.2 ++ " tables).")
  else (b, c, false, "GCS bucket not configured")

-- ===========================================================================
-- Basic frame lemmas for the two loops
-- ===========================================================================

theorem putBlob_same (b : Blobs) (p v : String) : putBlob b p v p = some v := by
  simp [putBlob]

theorem putBlob_other (b : Blobs) (p v q : String) (h : q ≠ p) :
    putBlob b p v q = b q := by
  simp [putBlob, h]

theorem putCache_other (c : Cache) (k v q : String) (h : q ≠ k) :
    putCache c k v q = c q := by
  simp [putCache, h]

/-- The staging loop writes only to staging paths of listed tables. -/
theorem stageTables_frame (extract : String → Except String String)
    (skip : List String) :
    ∀ (ts : List TableConfig) (b : Blobs) (p : String),
      (∀ t ∈ ts, t.staging ≠ p) →
      (stageTables extract skip ts b).1 p = b p := by
  intro ts
  induction ts with
  | nil => intro b p _; simp [stageTables]
  | cons t ts ih =>
    intro b p hp
    have ht : t.staging ≠ p := hp t (by simp)
    have hts : ∀ u ∈ ts, u.staging ≠ p := fun u hu => hp u (by simp [hu])
    by_cases hskip : t.key ∈ skip
    · simpa [stageTables, hskip] using ih b p hts
    · cases hext : extract t.bq with
      | error e => simp [stageTables, hskip, hext]
      | ok content =>
        have := ih (putBlob b t.staging content) p hts
        rcases hrec : stageTables extract skip ts (putBlob b t.staging content)
          with ⟨b2, r⟩
        cases r with
        | ok n =>
          simp only [stageTables, if_neg hskip, hext, hrec]
          rw [hrec, putBlob_other _ _ _ _ (Ne.symm ht)] at this
          simpa using this
        | error e =>
          simp only [stageTables, if_neg hskip, hext, hrec]
          rw [hrec, putBlob_other _ _ _ _ (Ne.symm ht)] at this
          simpa using this

/-- The promotion loop writes blobs only at active paths of listed tables. -/
theorem promoteTables_blob_frame (skip : List String) :
    ∀ (ts : List TableConfig) (b : Blobs) (c : Cache) (p : String),
      (∀ t ∈ ts, t.active ≠ p) →
      (promoteTables skip ts b c).1 p = b p := by
  intro ts
  induction ts with
  | nil => intro b c p _; simp [promoteTables]
  | cons t ts ih =>
    intro b c p hp
    have ht : t.active ≠ p := hp t (by simp)
    have hts : ∀ u ∈ ts, u.active ≠ p := fun u hu => hp u (by simp [hu])
    by_cases hskip : t.key ∈ skip
    · simpa [promoteTables, hskip] using ih b c p hts
    · cases hst : b t.staging with
      | none => simpa [promoteTables, hskip, hst] using ih b c p hts
      | some content =>
        have := ih (putBlob b t.active content) (putCache c t.key content) p hts
        rw [putBlob_other _ _ _ _ (Ne.symm ht)] at this
        simpa [promoteTables, hskip, hst] using this

/-- The promotion loop touches cache slots only at keys of listed tables. -/
theorem promoteTables_cache_frame (skip : List String) :
    ∀ (ts : List TableConfig) (b : Blobs) (c : Cache) (k : String),
      (∀ t ∈ ts, t.key ≠ k) →
      (promoteTables skip ts b c).2.1 k = c k := by
  intro ts
  induction ts with
  | nil => intro b c k _; simp [promoteTables]
  | cons t ts ih =>
    intro b c k hk
    have ht : t.key ≠ k := hk t (by simp)
    have hts : ∀ u ∈ ts, u.key ≠ k := fun u hu => hk u (by simp [hu])
    by_cases hskip : t.key ∈ skip
    · simpa [promoteTables, hskip] using ih b c k hts
    · cases hst : b t.staging with
      | none => simpa [promoteTables, hskip, hst] using ih b c k hts
      | some content =>
        have := ih (putBlob b t.active content) (putCache c t.key content) k hts
        rw [putCache_other _ _ _ _ (Ne.symm ht)] at this
        simpa [promoteTables, hskip, hst] using this

/-- If a blob at `sp` is absent and no listed table writes to `sp`, and
every listed table that could write blob `ap` or cache slot `k` has staging
path `sp`, then the loop leaves `ap` and `k` untouched and `sp` absent. -/
theorem promoteTables_absent (skip : List String) :
    ∀ (ts : List TableConfig) (b : Blobs) (c : Cache) (sp ap k : String),
      b sp = none →
      (∀ u ∈ ts, u.active ≠ sp) →
      (∀ u ∈ ts, u.active = ap → u.staging = sp) →
      (∀ u ∈ ts, u.key = k → u.staging = sp) →
      (promoteTables skip ts b c).1 ap = b ap ∧
      (promoteTables skip ts b c).2.1 k = c k ∧
      (promoteTables skip ts b c).1 sp = none := by
  intro ts
  induction ts with
  | nil => intro b c sp ap k hsp _ _ _; simpa [promoteTables] using hsp
  | cons t ts ih =>
    intro b c sp ap k hsp h1 h2 h3
    have h1t : t.active ≠ sp := h1 t (by simp)
    have h1s : ∀ u ∈ ts, u.active ≠ sp := fun u hu => h1 u (by simp [hu])
    have h2s : ∀ u ∈ ts, u.active = ap → u.staging = sp :=
      fun u hu => h2 u (by simp [hu])
    have h3s : ∀ u ∈ ts, u.key = k → u.staging = sp :=
      fun u hu => h3 u (by simp [hu])
    by_cases hskip : t.key ∈ skip
    · simpa [promoteTables, hskip] using ih b c sp ap k hsp h1s h2s h3s
    · cases hst : b t.staging with
      | none =>
        simpa [promoteTables, hskip, hst] using ih b c sp ap k hsp h1s h2s h3s
      | some content =>
        have hts : t.staging ≠ sp := by
          intro h; rw [h, hsp] at hst; exact Option.noConfusion hst
        have hap : t.active ≠ ap := fun h => hts (h2 t (by simp) h)
        have hk : t.key ≠ k := fun h => hts (h3 t (by simp) h)
        have hb2sp : putBlob b t.active content sp = none := by
          rw [putBlob_other _ _ _ _ (Ne.symm h1t)]; exact hsp
        have := ih (putBlob b t.active content) (putCache c t.key content)
          sp ap k hb2sp h1s h2s h3s
        rw [putBlob_other _ _ _ _ (Ne.symm hap),
          putCache_other _ _ _ _ (Ne.symm hk)] at this
        simpa [promoteTables, hskip, hst] using this

/-- Once blob `ap` and cache slot `k` already hold the content of staging
blob `sp`, the rest of the loop preserves that (any table that writes them
reads `sp`, whose content never changes). -/
theorem promoteTables_stable (skip : List String) :
    ∀ (ts : List TableConfig) (b : Blobs) (c : Cache) (sp ap k content : String),
      b sp = some content →
      b ap = some content →
      c k = some content →
      (∀ u ∈ ts, u.active ≠ sp) →
      (∀ u ∈ ts, u.active = ap → u.staging = sp) →
      (∀ u ∈ ts, u.key = k → u.staging = sp) →
      (promoteTables skip ts b c).1 ap = some content ∧
      (promoteTables skip ts b c).2.1 k = some content := by
  intro ts
  induction ts with
  | nil => intro b c sp ap k content _ hap hk _ _ _
           simpa [promoteTables] using ⟨hap, hk⟩
  | cons t ts ih =>
    intro b c sp ap k content hsp hap hk h1 h2 h3
    have h1t : t.active ≠ sp := h1 t (by simp)
    have h1s : ∀ u ∈ ts, u.active ≠ sp := fun u hu => h1 u (by simp [hu])
    have h2s : ∀ u ∈ ts, u.active = ap → u.staging = sp :=
      fun u hu => h2 u (by simp [hu])
    have h3s : ∀ u ∈ ts, u.key = k → u.staging = sp :=
      fun u hu => h3 u (by simp [hu])
    by_cases hskip : t.key ∈ skip
    · simpa [promoteTables, hskip] using
        ih b c sp ap k content hsp hap hk h1s h2s h3s
    · cases hst : b t.staging with
      | none =>
        simpa [promoteTables, hskip, hst] using
          ih b c sp ap k content hsp hap hk h1s h2s h3s
      | some d =>
        have hb2sp : putBlob b t.active d sp = some content := by
          rw [putBlob_other _ _ _ _ (Ne.symm h1t)]; exact hsp
        by_cases hts : t.staging = sp
        · have hd : d = content := by
            rw [hts, hsp] at hst; exact (Option.some.injEq _ _ ▸ hst.symm)
          subst hd
          have hb2ap : putBlob b t.active d ap = some d := by
            by_cases h : ap = t.active
            · rw [h]; exact putBlob_same _ _ _
            · rw [putBlob_other _ _ _ _ h]; exact hap
          have hc2k : putCache c t.key d k = some d := by
            by_cases h : k = t.key
            · rw [h]; simp [putCache]
            · rw [putCache_other _ _ _ _ h]; exact hk
          have := ih (putBlob b t.active d) (putCache c t.key d)
            sp ap k d hb2sp hb2ap hc2k h1s h2s h3s
          simpa [promoteTables, hskip, hst] using this
        · have hapne : t.active ≠ ap := fun h => hts (h2 t (by simp) h)
          have hkne : t.key ≠ k := fun h => hts (h3 t (by simp) h)
          have hb2ap : putBlob b t.active d ap = some content := by
            rw [putBlob_other _ _ _ _ (Ne.symm hapne)]; exact hap
          have hc2k : putCache c t.key d k = some content := by
            rw [putCache_other _ _ _ _ (Ne.symm hkne)]; exact hk
          have := ih (putBlob b t.active d) (putCache c t.key d)
            sp ap k content hb2sp hb2ap hc2k h1s h2s h3s
          simpa [promoteTables, hskip, hst] using this

/-- If staging blob `sp` is present with some content, some listed table
reads `sp` and is not skipped, and `sp`, `ap`, `k` belong together
injectively, then after the loop the active blob `ap` and cache slot `k`
hold exactly the staging content. -/
theorem promoteTables_present (skip : List String) :
    ∀ (ts : List TableConfig) (b : Blobs) (c : Cache) (sp ap k content : String),
      b sp = some content →
      (∀ u ∈ ts, u.active ≠ sp) →
      (∀ u ∈ ts, u.active = ap → u.staging = sp) →
      (∀ u ∈ ts, u.key = k → u.staging = sp) →
      (∀ u ∈ ts, u.staging = sp → u.active = ap ∧ u.key = k ∧ u.key ∉ skip) →
      (∃ u ∈ ts, u.staging = sp) →
      (promoteTables skip ts b c).1 ap = some content ∧
      (promoteTables skip ts b c).2.1 k = some content := by
  intro ts
  induction ts with
  | nil => intro b c sp ap k content _ _ _ _ _ hex
           exact absurd hex (by simp)
  | cons t ts ih =>
    intro b c sp ap k content hsp h1 h2 h3 h4 hex
    have h1t : t.active ≠ sp := h1 t (by simp)
    have h1s : ∀ u ∈ ts, u.active ≠ sp := fun u hu => h1 u (by simp [hu])
    have h2s : ∀ u ∈ ts, u.active = ap → u.staging = sp :=
      fun u hu => h2 u (by simp [hu])
    have h3s : ∀ u ∈ ts, u.key = k → u.staging = sp :=
      fun u hu => h3 u (by simp [hu])
    have h4s : ∀ u ∈ ts, u.staging = sp → u.active = ap ∧ u.key = k ∧ u.key ∉ skip :=
      fun u hu => h4 u (by simp [hu])
    by_cases hts : t.staging = sp
    · obtain ⟨hta, htk, htn⟩ := h4 t (by simp) hts
      have hst : b t.staging = some content := by rw [hts]; exact hsp
      have hb2sp : putBlob b t.active content sp = some content := by
        rw [putBlob_other _ _ _ _ (Ne.symm h1t)]; exact hsp
      have hb2ap : putBlob b t.active content ap = some content := by
        rw [← hta]; exact putBlob_same _ _ _
      have hc2k : putCache c t.key content k = some content := by
        rw [← htk]; simp [putCache]
      have := promoteTables_stable skip ts (putBlob b t.active content)
        (putCache c t.key content) sp ap k content hb2sp hb2ap hc2k h1s h2s h3s
      simpa [promoteTables, htn, hst] using this
    · have hex2 : ∃ u ∈ ts, u.staging = sp := by
        rcases hex with ⟨u, hu, hsu⟩
        rcases List.mem_cons.mp hu with h | h
        · exact absurd (h ▸ hsu) hts
        · exact ⟨u, h, hsu⟩
      by_cases hskip : t.key ∈ skip
      · simpa [promoteTables, hskip] using
          ih b c sp ap k content hsp h1s h2s h3s h4s hex2
      · cases hst : b t.staging with
        | none =>
          simpa [promoteTables, hskip, hst] using
            ih b c sp ap k content hsp h1s h2s h3s h4s hex2
        | some d =>
          have hapne : t.active ≠ ap := fun h => hts (h2 t (by simp) h)
          have hkne : t.key ≠ k := fun h => hts (h3 t (by simp) h)
          have hb2sp : putBlob b t.active d sp = some content := by
            rw [putBlob_other _ _ _ _ (Ne.symm h1t)]; exact hsp
          have := ih (putBlob b t.active d) (putCache c t.key d)
            sp ap k content hb2sp h1s h2s h3s h4s hex2
          simpa [promoteTables, hskip, hst] using this

-- ===========================================================================
-- Runs of the promotion call: helper lemmas at the level of the full call
-- ===========================================================================

/-- Auxiliary form of the absent-staging frame property, with the path
disjointness facts as explicit hypotheses. -/
theorem promote_run_absent_aux (skip : List String) (b : Blobs) (c : Cache)
    (now : String) (t : TableConfig) (hnone : b t.staging = none)
    (hA : ∀ v ∈ DAEDALUS_TABLES, v.active ≠ t.staging)
    (hB : ∀ v ∈ DAEDALUS_TABLES, v.active = t.active → v.staging = t.staging)
    (hC : ∀ v ∈ DAEDALUS_TABLES, v.key = t.key → v.staging = t.staging)
    (hTS : t.active ≠ GCS_DAEDALUS_GCS_REFRESH) :
    (refresh_daedalus_gcs_from_staging true now skip b c).1 t.active = b t.active ∧
    (refresh_daedalus_gcs_from_staging true now skip b c).2.1 t.key = c t.key := by
  have h := promoteTables_absent skip DAEDALUS_TABLES b c
    t.staging t.active t.key hnone hA hB hC
  refine ⟨?_, h.2.1⟩
  have hts : (refresh_daedalus_gcs_from_staging true now skip b c).1 =
      putBlob (promoteTables skip DAEDALUS_TABLES b c).1
        GCS_DAEDALUS_GCS_REFRESH now := by
    simp [refresh_daedalus_gcs_from_staging]
  rw [hts, putBlob_other _ _ _ _ hTS]
  exact h.1

/-- A registered table whose staging blob is absent is left untouched by a
full promotion call (active blob and cache slot keep their old values). -/
theorem promote_run_absent (skip : List String) (b : Blobs) (c : Cache)
    (now : String) (t : TableConfig) (hmem : t ∈ DAEDALUS_TABLES)
    (hnone : b t.staging = none) :
    (refresh_daedalus_gcs_from_staging true now skip b c).1 t.active = b t.active ∧
    (refresh_daedalus_gcs_from_staging true now skip b c).2.1 t.key = c t.key := by
  have hmem3 : t = tblDaedalus ∨ t = tblCacEntity ∨ t = tblActiveSubs := by
    simpa [DAEDALUS_TABLES] using hmem
  exact promote_run_absent_aux skip b c now t hnone
    (by rcases hmem3 with rfl | rfl | rfl <;> decide)
    (by rcases hmem3 with rfl | rfl | rfl <;> decide)
    (by rcases hmem3 with rfl | rfl | rfl <;> decide)
    (by rcases hmem3 with rfl | rfl | rfl <;> decide)

/-- Auxiliary form of the promoted-table property, with the path
disjointness facts as explicit hypotheses. -/
theorem promote_run_present_aux (skip : List String) (b : Blobs) (c : Cache)
    (now : String) (u : TableConfig) (hmem : u ∈ DAEDALUS_TABLES)
    (hskip : u.key ∉ skip) (d : String) (hd : b u.staging = some d)
    (hA : ∀ v ∈ DAEDALUS_TABLES, v.active ≠ u.staging)
    (hB : ∀ v ∈ DAEDALUS_TABLES, v.active = u.active → v.staging = u.staging)
    (hC : ∀ v ∈ DAEDALUS_TABLES, v.key = u.key → v.staging = u.staging)
    (hD : ∀ v ∈ DAEDALUS_TABLES, v.staging = u.staging →
      v.active = u.active ∧ v.key = u.key)
    (hTS : u.active ≠ GCS_DAEDALUS_GCS_REFRESH) :
    (refresh_daedalus_gcs_from_staging true now skip b c).1 u.active = some d ∧
    (refresh_daedalus_gcs_from_staging true now skip b c).2.1 u.key = some d := by
  have h4 : ∀ v ∈ DAEDALUS_TABLES, v.staging = u.staging →
      v.active = u.active ∧ v.key = u.key ∧ v.key ∉ skip := by
    intro v hv hvs
    obtain ⟨ha, hk⟩ := hD v hv hvs
    exact ⟨ha, hk, hk ▸ hskip⟩
  have h := promoteTables_present skip DAEDALUS_TABLES b c
    u.staging u.active u.key d hd hA hB hC h4 ⟨u, hmem, rfl⟩
  refine ⟨?_, h.2⟩
  have hts : (refresh_daedalus_gcs_from_staging true now skip b c).1 =
      putBlob (promoteTables skip DAEDALUS_TABLES b c).1
        GCS_DAEDALUS_GCS_REFRESH now := by
    simp [refresh_daedalus_gcs_from_staging]
  rw [hts, putBlob_other _ _ _ _ hTS]
  exact h.1

/-- A registered table whose staging blob is present and whose key is not
skipped is promoted by a full promotion call: afterwards its active blob and
cache slot hold exactly the staging content. -/
theorem promote_run_present (skip : List String) (b : Blobs) (c : Cache)
    (now : String) (u : TableConfig) (hmem : u ∈ DAEDALUS_TABLES)
    (hskip : u.key ∉ skip) (d : String) (hd : b u.staging = some d) :
    (refresh_daedalus_gcs_from_staging true now skip b c).1 u.active = some d ∧
    (refresh_daedalus_gcs_from_staging true now skip b c).2.1 u.key = some d := by
  have hmem3 : u = tblDaedalus ∨ u = tblCacEntity ∨ u = tblActiveSubs := by
    simpa [DAEDALUS_TABLES] using hmem
  exact promote_run_present_aux skip b c now u hmem hskip d hd
    (by rcases hmem3 with rfl | rfl | rfl <;> decide)
    (by rcases hmem3 with rfl | rfl | rfl <;> decide)
    (by rcases hmem3 with rfl | rfl | rfl <;> decide)
    (by rcases hmem3 with rfl | rfl | rfl <;> decide)
    (by rcases hmem3 with rfl | rfl | rfl <;> decide)

/-- C4: for every call to refresh_daedalus_gcs_from_staging and every
registered table T not in the skip set, if the staging blob of T is absent
then T is skipped: its active blob and its materialized cache slot are
exactly what they were before the call, the call still reports success, and
every other table with staging content present (and not skipped) is still
promoted to exactly that content. -/
theorem promote_skips_table_with_missing_staging
    (skip : List String) (b : Blobs) (c : Cache) (now : String)
    (t : TableConfig) (hmem : t ∈ DAEDALUS_TABLES) (_hskip : t.key ∉ skip)
    (hnone : b t.staging = none) :
    (refresh_daedalus_gcs_from_staging true now skip b c).1 t.active = b t.active ∧
    (refresh_daedalus_gcs_from_staging true now skip b c).2.1 t.key = c t.key ∧
    (refresh_daedalus_gcs_from_staging true now skip b c).2.2.1 = true ∧
    (∀ u ∈ DAEDALUS_TABLES, u.key ∉ skip → ∀ d, b u.staging = some d →
      (refresh_daedalus_gcs_from_staging true now skip b c).1 u.active = some d ∧
      (refresh_daedalus_gcs_from_staging true now skip b c).2.1 u.key = some d) := by
  obtain ⟨h1, h2⟩ := promote_run_absent skip b c now t hmem hnone
  refine ⟨h1, h2, by simp [refresh_daedalus_gcs_from_staging], ?_⟩
  intro u hu hus d hd
  exact promote_run_present skip b c now u hu hus d hd

/-- Concrete blob store for the C4 witness: cac_entity staging present,
daedalus staging absent. -/
def c4Blobs : Blobs := fun p =>
  if p = "daedalus_cache/cac_entity_staging.parquet" then some "STAGED" else none

/-- Witness for C4 at a concrete input: daedalus has no staging blob, the
call succeeds, leaves the daedalus slots untouched and promotes
cac_entity. -/
theorem promote_skips_table_with_missing_staging_witness :
    (refresh_daedalus_gcs_from_staging true "2026-01-01" [] c4Blobs
      (fun _ => none)).1 tblDaedalus.active = none ∧
    (refresh_daedalus_gcs_from_staging true "2026-01-01" [] c4Blobs
      (fun _ => none)).2.1 tblDaedalus.key = none ∧
    (refresh_daedalus_gcs_from_staging true "2026-01-01" [] c4Blobs
      (fun _ => none)).2.2.1 = true ∧
    (refresh_daedalus_gcs_from_staging true "2026-01-01" [] c4Blobs
      (fun _ => none)).2.1 tblCacEntity.key = some "STAGED" := by
  have h := promote_skips_table_with_missing_staging [] c4Blobs (fun _ => none)
    "2026-01-01" tblDaedalus (by decide) (by decide) (by decide)
  refine ⟨?_, ?_, h.2.2.1, ?_⟩
  · rw [h.1]; decide
  · rw [h.2.1]
  · exact (h.2.2.2 tblCacEntity (by decide) (by decide) "STAGED" (by decide)).2

-- ===========================================================================
-- C1: failure behaviour of refresh_daedalus_bq_to_staging
-- ===========================================================================

/-- If extraction of table `t` raises while every other listed table (not
skipped, different locator) extracts fine, the staging loop stops with that
error and the staging blob of `t` is untouched. -/
theorem stageTables_abort (extract : String → Except String String)
    (skip : List String) :
    ∀ (ts : List TableConfig) (b : Blobs) (t : TableConfig) (e : String),
      t ∈ ts → t.key ∉ skip → extract t.bq = Except.error e →
      (∀ u ∈ ts, u.key ∉ skip → u.bq ≠ t.bq → ∃ d, extract u.bq = Except.ok d) →
      (∀ u ∈ ts, u.staging ≠ t.staging ∨ u.bq = t.bq) →
      (stageTables extract skip ts b).2 = Except.error e ∧
      (stageTables extract skip ts b).1 t.staging = b t.staging := by
  intro ts
  induction ts with
  | nil => intro b t e hmem; exact absurd hmem (by simp)
  | cons h ts ih =>
    intro b t e hmem hskip herr hok hdisj
    have hoks : ∀ u ∈ ts, u.key ∉ skip → u.bq ≠ t.bq →
        ∃ d, extract u.bq = Except.ok d := fun u hu => hok u (by simp [hu])
    have hdisjs : ∀ u ∈ ts, u.staging ≠ t.staging ∨ u.bq = t.bq :=
      fun u hu => hdisj u (by simp [hu])
    by_cases hsk : h.key ∈ skip
    · have htmem : t ∈ ts := by
        rcases List.mem_cons.mp hmem with rfl | hm
        · exact absurd hsk hskip
        · exact hm
      simpa [stageTables, hsk] using ih b t e htmem hskip herr hoks hdisjs
    · by_cases hbq : h.bq = t.bq
      · have herr2 : extract h.bq = Except.error e := by rw [hbq]; exact herr
        simp [stageTables, hsk, herr2]
      · have htmem : t ∈ ts := by
          rcases List.mem_cons.mp hmem with rfl | hm
          · exact absurd rfl hbq
          · exact hm
        obtain ⟨d, hd⟩ := hok h (by simp) hsk hbq
        have hstg : h.staging ≠ t.staging := by
          rcases hdisj h (by simp) with hne | heq
          · exact hne
          · exact absurd heq hbq
        have := ih (putBlob b h.staging d) t e htmem hskip herr hoks hdisjs
        rw [putBlob_other _ _ _ _ (Ne.symm hstg)] at this
        rcases hrec : stageTables extract skip ts (putBlob b h.staging d)
          with ⟨b2, r⟩
        rw [hrec] at this
        have hr : r = Except.error e := this.1
        subst hr
        simp only [stageTables, if_neg hsk, hd, hrec]
        exact ⟨by simp, this.2⟩

/-- C1 as amended: a per-table extraction failure is NOT caught at the
table boundary. If extraction of registered table t raises (and tables with
other locators extract fine), the whole call fails and surfaces the error
message, the staging blob of t is untouched (failure is non-destructive for
t), and the BQ refresh timestamp blob is untouched. Tables iterated before
t keep the staging content written before the abort; tables after t are
never staged (see the counterexample). -/
theorem stage_failure_aborts_whole_call
    (extract : String → Except String String) (skip : List String)
    (b : Blobs) (now e : String) (t : TableConfig)
    (hmem : t ∈ DAEDALUS_TABLES) (hskip : t.key ∉ skip)
    (herr : extract t.bq = Except.error e)
    (hok : ∀ u ∈ DAEDALUS_TABLES, u.key ∉ skip → u.bq ≠ t.bq →
      ∃ d, extract u.bq = Except.ok d) :
    (refresh_daedalus_bq_to_staging extract true now skip b).2.1 = false ∧
    (refresh_daedalus_bq_to_staging extract true now skip b).2.2 =
      "Daedalus BQ refresh failed: " ++ e ∧
    (refresh_daedalus_bq_to_staging extract true now skip b).1 t.staging =
      b t.staging ∧
    (refresh_daedalus_bq_to_staging extract true now skip b).1
      GCS_DAEDALUS_BQ_REFRESH = b GCS_DAEDALUS_BQ_REFRESH := by
  have hmem3 : t = tblDaedalus ∨ t = tblCacEntity ∨ t = tblActiveSubs := by
    simpa [DAEDALUS_TABLES] using hmem
  have hdisj : ∀ u ∈ DAEDALUS_TABLES, u.staging ≠ t.staging ∨ u.bq = t.bq := by
    rcases hmem3 with rfl | rfl | rfl <;> decide
  have habort := stageTables_abort extract skip DAEDALUS_TABLES b t e
    hmem hskip herr hok hdisj
  have hframe := stageTables_frame extract skip DAEDALUS_TABLES b
    GCS_DAEDALUS_BQ_REFRESH (by decide)
  rcases hrec : stageTables extract skip DAEDALUS_TABLES b with ⟨b2, r⟩
  rw [hrec] at habort hframe
  have hr : r = Except.error e := habort.1
  subst hr
  simp only [refresh_daedalus_bq_to_staging, if_pos rfl, hrec]
  exact ⟨rfl, rfl, habort.2, hframe⟩

/-- Initial blob store for the C1 counterexample: the staging blob of
active_subs holds prior content "OLD". -/
def c1Blobs : Blobs := fun p =>
  if p = "daedalus_cache/active_subs_staging.parquet" then some "OLD" else none

/-- Remote source for the C1 counterexample: extraction of the cac_entity
locator raises; every other locator extracts "FRESH". -/
def c1Extract : String → Except String String := fun loc =>
  if loc = "variant-finance-data-project.Daedalus.CAC_By_Entity" then
    Except.error "transient BQ error"
  else Except.ok "FRESH"

/-- Counterexample to C1 as stated: with the blob store reachable, a
failure of the cac_entity extraction makes the WHOLE call fail (success
flag false), and active_subs — whose extraction would have succeeded with
"FRESH" — is not staged: its staging blob still holds "OLD". The failure is
thus not caught at the table boundary and sibling tables are not isolated
from it. -/
theorem stage_failure_not_isolated_counterexample :
    (refresh_daedalus_bq_to_staging c1Extract true "2026-01-01" [] c1Blobs).2.1
      = false ∧
    c1Extract tblActiveSubs.bq = Except.ok "FRESH" ∧
    c1Blobs tblActiveSubs.staging = some "OLD" ∧
    (refresh_daedalus_bq_to_staging c1Extract true "2026-01-01" [] c1Blobs).1
      tblActiveSubs.staging = some "OLD" ∧
    (refresh_daedalus_bq_to_staging c1Extract true "2026-01-01" [] c1Blobs).1
      tblDaedalus.staging = some "FRESH" := by
  decide

/-- Witness for the amended C1 theorem at a concrete input. -/
theorem stage_failure_aborts_whole_call_witness :
    (refresh_daedalus_bq_to_staging c1Extract true "2026-01-01" [] c1Blobs).2.1
      = false ∧
    (refresh_daedalus_bq_to_staging c1Extract true "2026-01-01" [] c1Blobs).2.2
      = "Daedalus BQ refresh failed: " ++ "transient BQ error" ∧
    (refresh_daedalus_bq_to_staging c1Extract true "2026-01-01" [] c1Blobs).1
      tblCacEntity.staging = c1Blobs tblCacEntity.staging ∧
    (refresh_daedalus_bq_to_staging c1Extract true "2026-01-01" [] c1Blobs).1
      GCS_DAEDALUS_BQ_REFRESH = c1Blobs GCS_DAEDALUS_BQ_REFRESH :=
  stage_failure_aborts_whole_call c1Extract [] c1Blobs "2026-01-01"
    "transient BQ error" tblCacEntity (by decide) (by decide) (by decide)
    (by
      intro u hu _ hbq
      have hu3 : u = tblDaedalus ∨ u = tblCacEntity ∨ u = tblActiveSubs := by
        simpa [DAEDALUS_TABLES] using hu
      rcases hu3 with rfl | rfl | rfl
      · exact ⟨"FRESH", by decide⟩
      · exact absurd rfl hbq
      · exact ⟨"FRESH", by decide⟩)

-- ===========================================================================
-- C5: refresh timestamps are written unconditionally on loop completion
-- ===========================================================================

/-- C5 as amended: the refresh timestamps do not depend on how many tables
succeeded. Whenever refresh_daedalus_bq_to_staging returns success — even
with zero tables staged — the BQ refresh timestamp blob is overwritten with
now; it is left unchanged only when the call fails. And with the bucket
reachable, refresh_daedalus_gcs_from_staging always overwrites the GCS
refresh timestamp blob with now, even when zero tables were promoted. -/
theorem refresh_timestamps_written_unconditionally
    (extract : String → Except String String) (skip : List String)
    (b : Blobs) (c : Cache) (now : String) :
    ((refresh_daedalus_bq_to_staging extract true now skip b).2.1 = true →
      (refresh_daedalus_bq_to_staging extract true now skip b).1
        GCS_DAEDALUS_BQ_REFRESH = some now) ∧
    ((refresh_daedalus_bq_to_staging extract true now skip b).2.1 = false →
      (refresh_daedalus_bq_to_staging extract true now skip b).1
        GCS_DAEDALUS_BQ_REFRESH = b GCS_DAEDALUS_BQ_REFRESH) ∧
    (refresh_daedalus_gcs_from_staging true now skip b c).1
      GCS_DAEDALUS_GCS_REFRESH = some now := by
  have hframe := stageTables_frame extract skip DAEDALUS_TABLES b
    GCS_DAEDALUS_BQ_REFRESH (by decide)
  rcases hrec : stageTables extract skip DAEDALUS_TABLES b with ⟨b2, r⟩
  rw [hrec] at hframe
  refine ⟨?_, ?_, ?_⟩
  · intro _
    cases r with
    | ok n => simp [refresh_daedalus_bq_to_staging, hrec, putBlob_same]
    | error e =>
      exfalso
      simp [refresh_daedalus_bq_to_staging, hrec] at *
  · intro hfail
    cases r with
    | ok n =>
      exfalso
      simp [refresh_daedalus_bq_to_staging, hrec] at hfail
    | error e => simpa [refresh_daedalus_bq_to_staging, hrec] using hframe
  · simp [refresh_daedalus_gcs_from_staging, putBlob_same]

/-- Counterexample to C5 as stated: a call in which zero tables succeed
(every table in the skip set) still overwrites both refresh timestamps. -/
theorem refresh_timestamp_zero_tables_counterexample :
    (refresh_daedalus_bq_to_staging (fun _ => Except.error "unused") true "T1"
      ["daedalus", "cac_entity", "active_subs"] (fun _ => none)).2.1 = true ∧
    (refresh_daedalus_bq_to_staging (fun _ => Except.error "unused") true "T1"
      ["daedalus", "cac_entity", "active_subs"] (fun _ => none)).2.2 =
      "Daedalus BQ refresh complete (0 tables)." ∧
    (refresh_daedalus_bq_to_staging (fun _ => Except.error "unused") true "T1"
      ["daedalus", "cac_entity", "active_subs"] (fun _ => none)).1
      GCS_DAEDALUS_BQ_REFRESH = some "T1" ∧
    (refresh_daedalus_gcs_from_staging true "T2"
      ["daedalus", "cac_entity", "active_subs"] (fun _ => none)
      (fun _ => none)).2.2.2 = "Daedalus GCS refresh complete (0 tables)." ∧
    (refresh_daedalus_gcs_from_staging true "T2"
      ["daedalus", "cac_entity", "active_subs"] (fun _ => none)
      (fun _ => none)).1 GCS_DAEDALUS_GCS_REFRESH = some "T2" := by
  decide

/-- Witness for the amended C5 theorem at a concrete input. -/
theorem refresh_timestamps_written_unconditionally_witness :
    (refresh_daedalus_bq_to_staging (fun _ => Except.ok "D") true "T" []
      (fun _ => none)).1 GCS_DAEDALUS_BQ_REFRESH = some "T" :=
  (refresh_timestamps_written_unconditionally (fun _ => Except.ok "D") []
    (fun _ => none) (fun _ => none) "T").1 (by decide)

-- ===========================================================================
-- Authentication subsystem (auth.py): data model
-- ===========================================================================

/-- The dashboards grant of a user record: either the string "all" or a
list of dashboard ids (auth.py stores either value in the same JSON
field). -/
inductive DashSpec where
  | all : DashSpec
  | lst : List String → DashSpec
deriving DecidableEq, Repr

/-- One user record of the users JSON document (auth.py, DEFAULT_USERS
shape and add_user lines 370-375): password, role, name, dashboards. -/
structure UserRec where
  password : String
  role : String
  name : String
  dashboards : DashSpec
deriving DecidableEq, Repr

/-- The user snapshot stored inside a session (authenticate,
auth.py lines 245-250). -/
structure UserData where
  username : String
  role : String
  name : String
  dashboards : DashSpec
deriving DecidableEq, Repr

/-- One durable session record (create_session, auth.py lines 221-228).
`expires_at` is optional because load_session_from_gcs (line 114) guards
on the key being present; instants are modelled as integers. -/
structure SessionData where
  session_id : String
  user : UserData
  authenticated : Bool
  created_at : Int
  expires_at : Option Int
  remember_me : Bool
deriving DecidableEq, Repr

/-- A session blob as found in the store: either a well-formed record or
malformed content (json.loads raises, caught at auth.py line 122). -/
inductive SessBlob where
  | valid : SessionData → SessBlob
  | malformed : SessBlob
deriving DecidableEq, Repr

/-- Durable session store, keyed by session id (the GCS path
prefix + session_id + ".json" is injective in the session id). -/
def SessStore : Type := String → Option SessBlob

def putSess (s : SessStore) (sid : String) (d : SessionData) : SessStore :=
  fun q => if q = sid then some (SessBlob.valid d) else s q

def delSess (s : SessStore) (sid : String) : SessStore :=
  fun q => if q = sid then none else s q

-- ===========================================================================
-- Session storage functions (auth.py lines 100-158, 213-281)
-- ===========================================================================

/-- delete_session_from_gcs (auth.py lines 145-158): returns false only if
the bucket is unreachable; deleting an absent session is a no-op success. -/
def delete_session_from_gcs (bucketOk : Bool) (s : SessStore) (sid : String) :
    SessStore × Bool :=
  if bucketOk then (delSess s sid, true) else (s, false)

/-- load_session_from_gcs (auth.py lines 100-124): absent blob gives none;
malformed JSON raises and is caught, giving none; a record whose expiry is
present and strictly in the past is deleted and none is returned; otherwise
the record is returned. Returns the possibly-updated store as well. -/
def load_session_from_gcs (bucketOk : Bool) (s : SessStore) (now : Int)
    (sid : String) : Option SessionData × SessStore :=
  if bucketOk then
    match s sid with
    | none => (none, s)
    | some SessBlob.malformed => (none, s)
    | some (SessBlob.valid d) =>
      match d.expires_at with
      | some t =>
        if now > t then (none, (delete_session_from_gcs bucketOk s sid).1)
        else (some d, s)
      | none => (some d, s)
  else (none, s)

/-- save_session_to_gcs (auth.py lines 127-142): returns false (and writes
nothing) if the bucket is unreachable. -/
def save_session_to_gcs (bucketOk : Bool) (s : SessStore) (sid : String)
    (d : SessionData) : SessStore × Bool :=
  if bucketOk then (putSess s sid d, true) else (s, false)

/-- create_session (auth.py lines 213-233). `freshSid` models
generate_session_id(). Note that the boolean result of save_session_to_gcs
is discarded (line 231): the session id and expiry are returned whether or
not the record was durably written. -/
def create_session (bucketOk : Bool) (s : SessStore) (freshSid : String)
    (now ttlDefault ttlRemember : Int) (user : UserData) (remember : Bool) :
    SessStore × String × Int :=
  let ttl := if remember then ttlRemember else ttlDefault
  let expires := now + ttl
  let data : SessionData :=
    { session_id := freshSid, user := user, authenticated := true
    , created_at := now, expires_at := some expires, remember_me := remember }
  let r := save_session_to_gcs bucketOk s freshSid data
  (r.1, freshSid, expires)

/-- get_session_data (auth.py lines 257-261): an empty session id is falsy
and short-circuits to none. -/
def get_session_data (bucketOk : Bool) (store : SessStore) (now : Int)
    (sid : String) : Option SessionData × SessStore :=
  if sid == "" then (none, store)
  else load_session_from_gcs bucketOk store now sid

/-- get_current_user (auth.py lines 276-281). -/
def get_current_user (bucketOk : Bool) (store : SessStore) (now : Int)
    (sid : String) : Option UserData × SessStore :=
  let r := get_session_data bucketOk store now sid
  match r.1 with
  | some d => (some d.user, r.2)
  | none => (none, r.2)

/-- is_admin (auth.py lines 284-289): compares the snapshot role with the
string "admin" only. -/
def is_admin (bucketOk : Bool) (store : SessStore) (now : Int)
    (sid : String) : Bool :=
  match (get_current_user bucketOk store now sid).1 with
  | some u => u.role == "admin"
  | none => false

/-- One entry of the DASHBOARDS configuration (app.config is consumed but
not part of the sources; only the fields read by can_access_dashboard are
modelled: `id` and `enabled`, the latter via d.get("enabled", False)). The
configuration is passed as a parameter. -/
structure DashCfg where
  id : String
  enabled : Bool
deriving DecidableEq, Repr

/-- Dashboard lookup: next((d for d in DASHBOARDS if d["id"] == id), None)
(auth.py line 299). -/
def findDashboard (cfg : List DashCfg) (did : String) : Option DashCfg :=
  cfg.find? (fun d => d.id == did)

/-- can_access_dashboard (auth.py lines 292-307). The Python expression
`role == "admin" or dashboards == "all"` followed by
`dashboard_id in dashboards` is rendered as a nested check: admin role
first, then the two shapes of the dashboards value. -/
def can_access_dashboard (cfg : List DashCfg) (bucketOk : Bool)
    (store : SessStore) (now : Int) (sid did : String) : Bool :=
  match (get_current_user bucketOk store now sid).1 with
  | none => false
  | some u =>
    match findDashboard cfg did with
    | none => false
    | some dash =>
      if !dash.enabled then false
      else if u.role == "admin" then true
      else
        match u.dashboards with
        | DashSpec.all => true
        | DashSpec.lst l => decide (did ∈ l)

-- ===========================================================================
-- User database management (auth.py lines 165-206, 363-416)
-- ===========================================================================

/-- The users JSON document: an insertion-ordered association list, like a
Python dict keyed by user_id. -/
abbrev Users : Type := List (String × UserRec)

def lookupUser : Users → String → Option UserRec
  | [], _ => none
  | (k, v) :: rest, k2 => if k = k2 then some v else lookupUser rest k2

def hasUser (us : Users) (k : String) : Bool := (lookupUser us k).isSome

/-- Assignment users[k] = v on a Python dict: replaces the value in place
if the key exists, else appends the binding. -/
def setUser : Users → String → UserRec → Users
  | [], k, v => [(k, v)]
  | (k1, v1) :: rest, k, v =>
    if k1 = k then (k, v) :: rest else (k1, v1) :: setUser rest k v

/-- del users[k] on a Python dict: removes the binding. -/
def removeUser : Users → String → Users
  | [], _ => []
  | (k1, v1) :: rest, k =>
    if k1 = k then rest else (k1, v1) :: removeUser rest k

/-- The module state of auth.py: the in-memory users cache (_users_cache
with its data and loaded_at fields), the durable users document (none if
the blob does not exist or cannot be parsed), and bucket reachability. -/
structure AuthState where
  cacheData : Option Users
  cacheLoadedAt : Option Int
  gcsUsers : Option Users
  bucketOk : Bool
deriving DecidableEq, Repr

/-- load_users_from_gcs (auth.py lines 50-65): none if the bucket is
unreachable, the blob absent, or the JSON malformed. -/
def load_users_from_gcs (s : AuthState) : Option Users :=
  if s.bucketOk then s.gcsUsers else none

/-- save_users_to_gcs (auth.py lines 68-83): a no-op returning false if the
bucket is unreachable. -/
def save_users_to_gcs (s : AuthState) (us : Users) : AuthState × Bool :=
  if s.bucketOk then ({ s with gcsUsers := some us }, true) else (s, false)

/-- The GCS-or-defaults path of get_users_db (auth.py lines 178-190):
load from GCS and cache it, else seed from DEFAULT_USERS (a parameter,
app.config is not part of the sources), save the seed, and cache it. -/
def get_users_db_load (defaults : Users) (s : AuthState) (now : Int) :
    Users × AuthState :=
  match load_users_from_gcs s with
  | some users =>
    (users, { s with cacheData := some users, cacheLoadedAt := some now })
  | none =>
    let s1 := (save_users_to_gcs s defaults).1
    (defaults,
      { s1 with cacheData := some defaults, cacheLoadedAt := some now })

/-- get_users_db (auth.py lines 165-190): memory cache if younger than 300
seconds, else GCS, else the defaults seed. -/
def get_users_db (defaults : Users) (s : AuthState) (now : Int) :
    Users × AuthState :=
  match s.cacheData, s.cacheLoadedAt with
  | some data, some t =>
    if now - t < 300 then (data, s)
    else get_users_db_load defaults s now
  | _, _ => get_users_db_load defaults s now

/-- update_users_db (auth.py lines 193-199): write-through refresh of the
in-memory cache, then durable save (whose failure is ignored). -/
def update_users_db (s : AuthState) (us : Users) (now : Int) : AuthState :=
  let s1 := { s with cacheData := some us, cacheLoadedAt := some now }
  (save_users_to_gcs s1 us).1

-- ===========================================================================
-- authenticate (auth.py lines 236-254)
-- ===========================================================================

/-- authenticate (auth.py lines 236-254): look the user up in the cached
users database, compare the password, build the user snapshot and create a
session. The result of the durable session write is never consulted. -/
def authenticate (defaults : Users) (s : AuthState) (store : SessStore)
    (freshSid : String) (now ttlDefault ttlRemember : Int)
    (username password : String) (remember : Bool) :
    AuthState × SessStore × Bool × Option String × Option Int :=
  let r := get_users_db defaults s now
  match lookupUser r.1 username with
  | some urec =>
    if urec.password == password then
      let user_data : UserData :=
        { username := username, role := urec.role, name := urec.name
        , dashboards := urec.dashboards }
      let cs := create_session s.bucketOk store freshSid now ttlDefault
        ttlRemember user_data remember
      (r.2, cs.1, true, some cs.2.1, some cs.2.2)
    else (r.2, store, false, none, none)
  | none => (r.2, store, false, none, none)

-- ===========================================================================
-- Admin functions (auth.py lines 363-416)
-- ===========================================================================

/-- add_user (auth.py lines 363-378). -/
def add_user (defaults : Users) (s : AuthState) (now : Int)
    (user_id password role name : String) (dashboards : DashSpec) :
    AuthState × Bool × String :=
  let r := get_users_db defaults s now
  if hasUser r.1 user_id then (r.2, false, "User ID already exists")
  else
    let urec : UserRec :=
      { password := password, role := role, name := name
      , dashboards := if role == "readonly" then dashboards else DashSpec.all }
    (update_users_db r.2 (setUser r.1 user_id urec) now, true,
      "User created successfully")

/-- update_user (auth.py lines 381-401). The optional string fields follow
Python truthiness: None and the empty string are both skipped. The
dashboards field is applied when the argument is not None (an empty list is
applied) and the role after the role update is "readonly". A role update to
"admin" (and only to "admin") also forces dashboards to "all". -/
def update_user (defaults : Users) (s : AuthState) (now : Int)
    (user_id : String) (password role name : Option String)
    (dashboards : Option DashSpec) : AuthState × Bool × String :=
  let r := get_users_db defaults s now
  match lookupUser r.1 user_id with
  | none => (r.2, false, "User not found")
  | some urec =>
    let u1 := match password with
      | some p => if p == "" then urec else { urec with password := p }
      | none => urec
    let u2 := match role with
      | some rl =>
        if rl == "" then u1
        else
          let u2a := { u1 with role := rl }
          if rl == "admin" then { u2a with dashboards := DashSpec.all }
          else u2a
      | none => u1
    let u3 := match name with
      | some nm => if nm == "" then u2 else { u2 with name := nm }
      | none => u2
    let u4 := match dashboards with
      | some ds =>
        if u3.role == "readonly" then { u3 with dashboards := ds } else u3
      | none => u3
    (update_users_db r.2 (setUser r.1 user_id u4) now, true,
      "User updated successfully")

/-- delete_user (auth.py lines 404-416). Note the order of the two guards:
the presence check comes before the protected-identity check. -/
def delete_user (defaults : Users) (s : AuthState) (now : Int)
    (user_id : String) : AuthState × Bool × String :=
  let r := get_users_db defaults s now
  if !hasUser r.1 user_id then (r.2, false, "User not found")
  else if user_id == "admin" then (r.2, false, "Cannot delete admin user")
  else (update_users_db r.2 (removeUser r.1 user_id) now, true,
    "User deleted successfully")

-- ===========================================================================
-- Helper lemmas on the users database state
-- ===========================================================================

theorem lookupUser_setUser_same :
    ∀ (us : Users) (k : String) (v : UserRec),
      lookupUser (setUser us k v) k = some v := by
  intro us
  induction us with
  | nil => intro k v; simp [setUser, lookupUser]
  | cons hd rest ih =>
    intro k v
    rcases hd with ⟨k1, v1⟩
    by_cases h : k1 = k
    · simp [setUser, h, lookupUser]
    · simp [setUser, h, lookupUser, ih]

theorem get_users_db_cache_hit (defaults : Users) (s : AuthState)
    (now t : Int) (us : Users) (hc : s.cacheData = some us)
    (hl : s.cacheLoadedAt = some t) (hfresh : now - t < 300) :
    get_users_db defaults s now = (us, s) := by
  simp [get_users_db, hc, hl, hfresh]

theorem get_users_db_bucket (defaults : Users) (s : AuthState) (now : Int) :
    (get_users_db defaults s now).2.bucketOk = s.bucketOk := by
  rcases s with ⟨cd, cl, gu, bk⟩
  cases cd <;> cases cl <;> cases gu <;> cases bk <;>
    simp [get_users_db, get_users_db_load, load_users_from_gcs,
      save_users_to_gcs] <;> split <;> simp

theorem update_users_db_cacheData (s : AuthState) (us : Users) (now : Int) :
    (update_users_db s us now).cacheData = some us := by
  simp [update_users_db, save_users_to_gcs]
  split <;> rfl

theorem update_users_db_cacheLoadedAt (s : AuthState) (us : Users)
    (now : Int) : (update_users_db s us now).cacheLoadedAt = some now := by
  simp [update_users_db, save_users_to_gcs]
  split <;> rfl

theorem update_users_db_gcsUsers (s : AuthState) (us : Users) (now : Int)
    (h : s.bucketOk = true) :
    (update_users_db s us now).gcsUsers = some us := by
  simp [update_users_db, save_users_to_gcs, h]

-- ===========================================================================
-- C6: lazy session expiry on read
-- ===========================================================================

/-- C6: for a stored session with expiry instant t, a read at any time not
after t returns the full record; a read strictly after t deletes the
durable record (the store afterwards has no blob at that session id) and
returns absent; an unknown or malformed session id returns absent without
an error and without touching the store. -/
theorem session_read_ttl_boundary (store : SessStore) (sid : String)
    (d : SessionData) (t : Int)
    (hd : store sid = some (SessBlob.valid d))
    (ht : d.expires_at = some t) :
    (∀ now : Int, now ≤ t →
      load_session_from_gcs true store now sid = (some d, store)) ∧
    (∀ now : Int, t < now →
      load_session_from_gcs true store now sid = (none, delSess store sid) ∧
      delSess store sid sid = none) ∧
    (∀ (sid2 : String) (now : Int), store sid2 = none →
      load_session_from_gcs true store now sid2 = (none, store)) ∧
    (∀ (sid2 : String) (now : Int), store sid2 = some SessBlob.malformed →
      load_session_from_gcs true store now sid2 = (none, store)) := by
  refine ⟨?_, ?_, ?_, ?_⟩
  · intro now hle
    have hngt : ¬ (now > t) := not_lt.mpr hle
    simp [load_session_from_gcs, hd, ht, hngt]
  · intro now hlt
    refine ⟨?_, by simp [delSess]⟩
    simp [load_session_from_gcs, hd, ht, hlt, delete_session_from_gcs]
  · intro sid2 now h2
    simp [load_session_from_gcs, h2]
  · intro sid2 now h2
    simp [load_session_from_gcs, h2]

/-- Concrete user snapshot for the C6 witness. -/
def c6User : UserData := ⟨"u", "readonly", "U", DashSpec.lst []⟩

/-- Concrete session record for the C6 witness: expiry instant 100. -/
def c6Session : SessionData := ⟨"s6", c6User, true, 0, some 100, false⟩

/-- Concrete session store for the C6 witness. -/
def c6Store : SessStore := fun q =>
  if q = "s6" then some (SessBlob.valid c6Session) else none

/-- Witness for C6 at a concrete input: read at now = 99 (before expiry
100) returns the record; read at now = 101 returns absent and deletes the
durable record. -/
theorem session_read_ttl_boundary_witness :
    load_session_from_gcs true c6Store 99 "s6" = (some c6Session, c6Store) ∧
    (load_session_from_gcs true c6Store 101 "s6").1 = none ∧
    (load_session_from_gcs true c6Store 101 "s6").2 "s6" = none := by
  have h := session_read_ttl_boundary c6Store "s6" c6Session 100
    (by decide) (by decide)
  refine ⟨h.1 99 (by decide), ?_, ?_⟩
  · rw [(h.2.1 101 (by decide)).1]
  · rw [(h.2.1 101 (by decide)).1]
    exact (h.2.1 101 (by decide)).2

-- ===========================================================================
-- C2: authenticate and durable session-write failure
-- ===========================================================================

/-- C2 as amended: create_session discards the boolean result of
save_session_to_gcs, so with the durable store unreachable authenticate
with matching credentials still returns success together with a session id
whose record was never durably written: the session store is returned
unchanged. -/
theorem authenticate_succeeds_despite_store_failure (defaults : Users)
    (s : AuthState) (store : SessStore) (freshSid : String)
    (now ttlD ttlR : Int) (username password : String) (remember : Bool)
    (urec : UserRec) (hb : s.bucketOk = false)
    (hu : lookupUser (get_users_db defaults s now).1 username = some urec)
    (hp : urec.password = password) :
    authenticate defaults s store freshSid now ttlD ttlR username password
      remember =
      ((get_users_db defaults s now).2, store, true, some freshSid,
        some (now + (if remember then ttlR else ttlD))) := by
  simp [authenticate, hu, hp, create_session, save_session_to_gcs, hb]

/-- Concrete user record for C2. -/
def c2UserRec : UserRec := ⟨"p", "readonly", "U", DashSpec.lst []⟩

/-- Concrete auth state for C2: users cache fresh, bucket unreachable. -/
def c2State : AuthState := ⟨some [("u", c2UserRec)], some 0, none, false⟩

/-- Counterexample to C2 as stated: with the durable backing store
unreachable, authenticate with valid credentials still returns success and
a session id, although the session record was never durably stored (the
store has no blob under that id). -/
theorem authenticate_store_unavailable_counterexample :
    (authenticate [] c2State (fun _ => none) "sid-1" 0 3600 86400 "u" "p"
      false).2.2.1 = true ∧
    (authenticate [] c2State (fun _ => none) "sid-1" 0 3600 86400 "u" "p"
      false).2.2.2.1 = some "sid-1" ∧
    (authenticate [] c2State (fun _ => none) "sid-1" 0 3600 86400 "u" "p"
      false).2.1 "sid-1" = none := by
  decide

/-- Witness for the amended C2 theorem at a concrete input. -/
theorem authenticate_succeeds_despite_store_failure_witness :
    authenticate [] c2State (fun _ => none) "sid-1" 0 3600 86400 "u" "p"
      false =
      ((get_users_db [] c2State 0).2, (fun _ => none), true, some "sid-1",
        some ((0 : Int) + (if false then 86400 else 3600))) :=
  authenticate_succeeds_despite_store_failure [] c2State (fun _ => none)
    "sid-1" 0 3600 86400 "u" "p" false c2UserRec
    (by decide) (by decide) (by decide)

-- ===========================================================================
-- C3: which roles grant full dashboard access
-- ===========================================================================

/-- C3 as amended: in can_access_dashboard only the literal role string
"admin" (or a dashboards value of "all") grants access to an enabled
dashboard; the role string "super_admin" is not recognized, so a session
whose snapshot has role "super_admin" and an explicit dashboards list is
granted access exactly by list membership. -/
theorem admin_role_dashboard_access (cfg : List DashCfg) (store : SessStore)
    (now : Int) (sid did : String) (u : UserData) (dash : DashCfg)
    (hu : (get_current_user true store now sid).1 = some u)
    (hfind : findDashboard cfg did = some dash)
    (hen : dash.enabled = true) :
    (u.role = "admin" →
      can_access_dashboard cfg true store now sid did = true) ∧
    (u.dashboards = DashSpec.all →
      can_access_dashboard cfg true store now sid did = true) ∧
    (∀ l, u.role = "super_admin" → u.dashboards = DashSpec.lst l →
      can_access_dashboard cfg true store now sid did = decide (did ∈ l)) := by
  refine ⟨?_, ?_, ?_⟩
  · intro hrole
    simp [can_access_dashboard, hu, hfind, hen, hrole]
  · intro hdash
    rcases hcase : (u.role == "admin") with _ | _ <;>
      simp [can_access_dashboard, hu, hfind, hen, hcase, hdash]
  · intro l hrole hdash
    have hne : (u.role == "admin") = false := by
      rw [hrole]; decide
    simp [can_access_dashboard, hu, hfind, hen, hne, hdash]

/-- Concrete user snapshot for the C3 counterexample: role "super_admin"
with an empty dashboards list. -/
def c3User : UserData := ⟨"sa", "super_admin", "SA", DashSpec.lst []⟩

/-- Concrete session record for the C3 counterexample. -/
def c3Session : SessionData := ⟨"sid-3", c3User, true, 0, some 100, false⟩

/-- Concrete session store for the C3 counterexample. -/
def c3Store : SessStore := fun q =>
  if q = "sid-3" then some (SessBlob.valid c3Session) else none

/-- Counterexample to C3 as stated: a session whose user snapshot has role
"super_admin" and an empty dashboards list is DENIED access to an enabled
dashboard (and is_admin is false for it), while the same snapshot with role
"admin" would be granted. -/
theorem super_admin_role_not_privileged_counterexample :
    can_access_dashboard [⟨"d1", true⟩] true c3Store 0 "sid-3" "d1"
      = false ∧
    is_admin true c3Store 0 "sid-3" = false := by
  decide

/-- Witness for the amended C3 theorem at a concrete input: an admin
session is granted access to the enabled dashboard "d1". -/
theorem admin_role_dashboard_access_witness :
    can_access_dashboard [⟨"d1", true⟩] true
      (putSess c3Store "sid-9" ⟨"sid-9", ⟨"a", "admin", "A", DashSpec.lst []⟩,
        true, 0, some 100, false⟩) 0 "sid-9" "d1" = true :=
  (admin_role_dashboard_access [⟨"d1", true⟩]
    (putSess c3Store "sid-9" ⟨"sid-9", ⟨"a", "admin", "A", DashSpec.lst []⟩,
      true, 0, some 100, false⟩) 0 "sid-9" "d1"
    ⟨"a", "admin", "A", DashSpec.lst []⟩ ⟨"d1", true⟩
    (by decide) (by decide) (by decide)).1 rfl

-- ===========================================================================
-- C8: delete_user and the protected identity
-- ===========================================================================

/-- C8 as amended: delete_user checks presence before protection. When the
protected identity "admin" is present, deleting it fails with the protected
rejection and the state is exactly the post-lookup state (document
unchanged); a user id not present fails with NotFound (this is also what
deleting "admin" returns when "admin" is absent from the document); any
other present user id is removed and the document persisted via
update_users_db. -/
theorem delete_user_protected_and_not_found (defaults : Users)
    (s : AuthState) (now : Int) (uid : String) :
    (hasUser (get_users_db defaults s now).1 "admin" = true →
      delete_user defaults s now "admin" =
        ((get_users_db defaults s now).2, false, "Cannot delete admin user")) ∧
    (hasUser (get_users_db defaults s now).1 uid = false →
      delete_user defaults s now uid =
        ((get_users_db defaults s now).2, false, "User not found")) ∧
    (hasUser (get_users_db defaults s now).1 uid = true → uid ≠ "admin" →
      delete_user defaults s now uid =
        (update_users_db (get_users_db defaults s now).2
          (removeUser (get_users_db defaults s now).1 uid) now, true,
          "User deleted successfully")) := by
  refine ⟨?_, ?_, ?_⟩
  · intro h
    simp [delete_user, h]
  · intro h
    simp [delete_user, h]
  · intro h hne
    simp [delete_user, h, hne]

/-- Concrete auth state for the C8 counterexample: a users document without
the protected identity "admin". -/
def c8State : AuthState :=
  ⟨some [("u1", ⟨"x", "readonly", "U1", DashSpec.lst []⟩)], some 0, none,
    false⟩

/-- Counterexample to C8 as stated: in a document where the protected
identity is absent, deleting "admin" fails with the NotFound message, not
with the Protected rejection, because the presence check precedes the
protection check. -/
theorem delete_admin_not_found_counterexample :
    (delete_user [] c8State 0 "admin").2.1 = false ∧
    (delete_user [] c8State 0 "admin").2.2 = "User not found" ∧
    (delete_user [] c8State 0 "admin").2.2 ≠ "Cannot delete admin user" := by
  decide

/-- Concrete auth state for the C8 witness: both "admin" and "u1"
present. -/
def c8StateB : AuthState :=
  ⟨some [("admin", ⟨"a", "admin", "Admin", DashSpec.all⟩),
    ("u1", ⟨"x", "readonly", "U1", DashSpec.lst []⟩)], some 0, none, false⟩

/-- Witness for the amended C8 theorem at a concrete input. -/
theorem delete_user_protected_and_not_found_witness :
    delete_user [] c8StateB 0 "admin" =
      ((get_users_db [] c8StateB 0).2, false, "Cannot delete admin user") ∧
    delete_user [] c8StateB 0 "ghost" =
      ((get_users_db [] c8StateB 0).2, false, "User not found") ∧
    delete_user [] c8StateB 0 "u1" =
      (update_users_db (get_users_db [] c8StateB 0).2
        (removeUser (get_users_db [] c8StateB 0).1 "u1") 0, true,
        "User deleted successfully") :=
  ⟨(delete_user_protected_and_not_found [] c8StateB 0 "admin").1 (by decide),
   (delete_user_protected_and_not_found [] c8StateB 0 "ghost").2.1 (by decide),
   (delete_user_protected_and_not_found [] c8StateB 0 "u1").2.2 (by decide)
     (by decide)⟩

-- ===========================================================================
-- C9: add_user, AlreadyExists and write-through cache freshness
-- ===========================================================================

/-- C9: add_user with a user id already present fails with the
AlreadyExists message and returns the post-lookup state unmodified; with a
fresh user id it succeeds, the new document is written through to the
in-process cache and (when the bucket is reachable) persisted durably, and
a get_users_db in the same process within the cache freshness window
already returns the document containing the new user. -/
theorem add_user_write_through (defaults : Users) (s : AuthState)
    (now : Int) (uid password role nm : String) (ds : DashSpec) :
    (hasUser (get_users_db defaults s now).1 uid = true →
      add_user defaults s now uid password role nm ds =
        ((get_users_db defaults s now).2, false, "User ID already exists")) ∧
    (hasUser (get_users_db defaults s now).1 uid = false →
      (add_user defaults s now uid password role nm ds).2.1 = true ∧
      (add_user defaults s now uid password role nm ds).1 =
        update_users_db (get_users_db defaults s now).2
          (setUser (get_users_db defaults s now).1 uid
            ⟨password, role, nm,
              if role == "readonly" then ds else DashSpec.all⟩) now ∧
      (s.bucketOk = true →
        (add_user defaults s now uid password role nm ds).1.gcsUsers =
          some (setUser (get_users_db defaults s now).1 uid
            ⟨password, role, nm,
              if role == "readonly" then ds else DashSpec.all⟩)) ∧
      (∀ now2 : Int, now2 - now < 300 →
        lookupUser
          (get_users_db defaults
            (add_user defaults s now uid password role nm ds).1 now2).1 uid =
          some ⟨password, role, nm,
            if role == "readonly" then ds else DashSpec.all⟩)) := by
  refine ⟨?_, ?_⟩
  · intro h
    simp [add_user, h]
  · intro h
    have hstate : (add_user defaults s now uid password role nm ds).1 =
        update_users_db (get_users_db defaults s now).2
          (setUser (get_users_db defaults s now).1 uid
            ⟨password, role, nm,
              if role == "readonly" then ds else DashSpec.all⟩) now := by
      simp [add_user, h]
    refine ⟨by simp [add_user, h], hstate, ?_, ?_⟩
    · intro hb
      rw [hstate]
      exact update_users_db_gcsUsers _ _ _
        (by rw [get_users_db_bucket]; exact hb)
    · intro now2 hfresh
      rw [hstate,
        get_users_db_cache_hit defaults _ now2 now _
          (update_users_db_cacheData _ _ _)
          (update_users_db_cacheLoadedAt _ _ _) hfresh]
      exact lookupUser_setUser_same _ _ _

/-- Concrete auth state for the C9 witness. -/
def c9State : AuthState :=
  ⟨some [("admin", ⟨"a", "admin", "Admin", DashSpec.all⟩)], some 0,
    some [("admin", ⟨"a", "admin", "Admin", DashSpec.all⟩)], true⟩

/-- Witness for C9 at a concrete input: adding an existing id fails;
adding the fresh id "x" succeeds and an immediate get_users_db already
contains "x" (write-through), and the document is durably persisted. -/
theorem add_user_write_through_witness :
    add_user [] c9State 0 "admin" "p" "readonly" "A" (DashSpec.lst []) =
      ((get_users_db [] c9State 0).2, false, "User ID already exists") ∧
    (add_user [] c9State 0 "x" "p" "readonly" "X" (DashSpec.lst ["d1"])).2.1
      = true ∧
    lookupUser
      (get_users_db []
        (add_user [] c9State 0 "x" "p" "readonly" "X"
          (DashSpec.lst ["d1"])).1 1).1 "x" =
      some ⟨"p", "readonly", "X",
        if ("readonly" == "readonly") then DashSpec.lst ["d1"]
        else DashSpec.all⟩ ∧
    (add_user [] c9State 0 "x" "p" "readonly" "X"
      (DashSpec.lst ["d1"])).1.gcsUsers =
      some (setUser (get_users_db [] c9State 0).1 "x"
        ⟨"p", "readonly", "X",
          if ("readonly" == "readonly") then DashSpec.lst ["d1"]
          else DashSpec.all⟩) :=
  ⟨(add_user_write_through [] c9State 0 "admin" "p" "readonly" "A"
      (DashSpec.lst [])).1 (by decide),
   ((add_user_write_through [] c9State 0 "x" "p" "readonly" "X"
      (DashSpec.lst ["d1"])).2 (by decide)).1,
   ((add_user_write_through [] c9State 0 "x" "p" "readonly" "X"
      (DashSpec.lst ["d1"])).2 (by decide)).2.2.2 1 (by decide),
   ((add_user_write_through [] c9State 0 "x" "p" "readonly" "X"
      (DashSpec.lst ["d1"])).2 (by decide)).2.2.1 (by decide)⟩

-- ===========================================================================
-- C7: role updates and the forced dashboards value
-- ===========================================================================

/-- C7 as amended: update_user forces dashboards to "all" only when the new
role is the literal string "admin"; a role change to "super_admin" leaves
the dashboards field unchanged. In both cases the updated document is
written through to the in-process cache and (when the bucket is reachable)
persisted durably. -/
theorem update_user_role_admin_forces_all (defaults : Users) (s : AuthState)
    (now : Int) (uid : String) (urec : UserRec)
    (hu : lookupUser (get_users_db defaults s now).1 uid = some urec) :
    update_user defaults s now uid none (some "admin") none none =
      (update_users_db (get_users_db defaults s now).2
        (setUser (get_users_db defaults s now).1 uid
          { urec with role := "admin", dashboards := DashSpec.all }) now,
        true, "User updated successfully") ∧
    (update_user defaults s now uid none (some "admin") none
      none).1.cacheData =
      some (setUser (get_users_db defaults s now).1 uid
        { urec with role := "admin", dashboards := DashSpec.all }) ∧
    (s.bucketOk = true →
      (update_user defaults s now uid none (some "admin") none
        none).1.gcsUsers =
        some (setUser (get_users_db defaults s now).1 uid
          { urec with role := "admin", dashboards := DashSpec.all })) ∧
    update_user defaults s now uid none (some "super_admin") none none =
      (update_users_db (get_users_db defaults s now).2
        (setUser (get_users_db defaults s now).1 uid
          { urec with role := "super_admin" }) now,
        true, "User updated successfully") := by
  have hadmin : update_user defaults s now uid none (some "admin") none
      none =
      (update_users_db (get_users_db defaults s now).2
        (setUser (get_users_db defaults s now).1 uid
          { urec with role := "admin", dashboards := DashSpec.all }) now,
        true, "User updated successfully") := by
    simp [update_user, hu]
  refine ⟨hadmin, by rw [hadmin]; exact update_users_db_cacheData _ _ _,
    ?_, ?_⟩
  · intro hb
    rw [hadmin]
    exact update_users_db_gcsUsers _ _ _
      (by rw [get_users_db_bucket]; exact hb)
  · simp [update_user, hu]

/-- Concrete auth state for C7: one readonly user with an explicit
dashboards list. -/
def c7State : AuthState :=
  ⟨some [("u1", ⟨"x", "readonly", "U1", DashSpec.lst ["d1"]⟩)], some 0,
    none, false⟩

/-- Counterexample to C7 as stated: updating the role of a user to
"super_admin" does NOT set the dashboards field to "all" — the update
succeeds and the stored record keeps its previous explicit dashboards
list. -/
theorem update_super_admin_keeps_dashboards_counterexample :
    (update_user [] c7State 0 "u1" none (some "super_admin") none
      none).2.1 = true ∧
    lookupUser
      ((update_user [] c7State 0 "u1" none (some "super_admin") none
        none).1.cacheData.getD []) "u1" =
      some ⟨"x", "super_admin", "U1", DashSpec.lst ["d1"]⟩ ∧
    DashSpec.lst ["d1"] ≠ DashSpec.all := by
  decide

/-- Witness for the amended C7 theorem at a concrete input. -/
theorem update_user_role_admin_forces_all_witness :
    update_user [] c7State 0 "u1" none (some "admin") none none =
      (update_users_db (get_users_db [] c7State 0).2
        (setUser (get_users_db [] c7State 0).1 "u1"
          ⟨"x", "admin", "U1", DashSpec.all⟩) 0, true,
        "User updated successfully") ∧
    update_user [] c7State 0 "u1" none (some "super_admin") none none =
      (update_users_db (get_users_db [] c7State 0).2
        (setUser (get_users_db [] c7State 0).1 "u1"
          ⟨"x", "super_admin", "U1", DashSpec.lst ["d1"]⟩) 0, true,
        "User updated successfully") :=
  ⟨(update_user_role_admin_forces_all [] c7State 0 "u1"
      ⟨"x", "readonly", "U1", DashSpec.lst ["d1"]⟩ (by decide)).1,
   (update_user_role_admin_forces_all [] c7State 0 "u1"
      ⟨"x", "readonly", "U1", DashSpec.lst ["d1"]⟩ (by decide)).2.2.2⟩

-- ===========================================================================
-- C10: falsy update arguments and the dashboards gating
-- ===========================================================================

/-- C10: update_user treats None and the empty string as "not provided" for
password, role and name (so the empty string can never be set as a password
through this operation), and the dashboards argument — applied whenever it
is not None, including an empty list — takes effect exactly when the role
after the role update is "readonly": for a role argument of "readonly" it
is applied, for any other new role it is ignored (with "admin" forcing
"all" instead), and with no role argument it is applied or ignored
according to the existing role. -/
theorem update_user_falsy_fields (defaults : Users) (s : AuthState)
    (now : Int) (uid : String) (urec : UserRec) (ds : DashSpec)
    (hu : lookupUser (get_users_db defaults s now).1 uid = some urec) :
    update_user defaults s now uid (some "") (some "") (some "") none =
      (update_users_db (get_users_db defaults s now).2
        (setUser (get_users_db defaults s now).1 uid urec) now, true,
        "User updated successfully") ∧
    update_user defaults s now uid none none none none =
      (update_users_db (get_users_db defaults s now).2
        (setUser (get_users_db defaults s now).1 uid urec) now, true,
        "User updated successfully") ∧
    (urec.role = "readonly" →
      update_user defaults s now uid none none none (some ds) =
        (update_users_db (get_users_db defaults s now).2
          (setUser (get_users_db defaults s now).1 uid
            { urec with dashboards := ds }) now, true,
          "User updated successfully")) ∧
    (urec.role ≠ "readonly" →
      update_user defaults s now uid none none none (some ds) =
        (update_users_db (get_users_db defaults s now).2
          (setUser (get_users_db defaults s now).1 uid urec) now, true,
          "User updated successfully")) ∧
    (update_user defaults s now uid none (some "readonly") none (some ds) =
      (update_users_db (get_users_db defaults s now).2
        (setUser (get_users_db defaults s now).1 uid
          { urec with role := "readonly", dashboards := ds }) now, true,
        "User updated successfully")) ∧
    (update_user defaults s now uid none (some "admin") none (some ds) =
      (update_users_db (get_users_db defaults s now).2
        (setUser (get_users_db defaults s now).1 uid
          { urec with role := "admin", dashboards := DashSpec.all }) now,
        true, "User updated successfully")) ∧
    (∀ r : String, r ≠ "" → r ≠ "readonly" → r ≠ "admin" →
      update_user defaults s now uid none (some r) none (some ds) =
        (update_users_db (get_users_db defaults s now).2
          (setUser (get_users_db defaults s now).1 uid
            { urec with role := r }) now, true,
          "User updated successfully")) := by
  refine ⟨?_, ?_, ?_, ?_, ?_, ?_, ?_⟩
  · simp [update_user, hu]
  · simp [update_user, hu]
  · intro hrole
    simp [update_user, hu, hrole]
  · intro hrole
    simp [update_user, hu, hrole]
  · simp [update_user, hu]
  · simp [update_user, hu]
  · intro r h1 h2 h3
    simp [update_user, hu, h1, h2, h3]

/-- Concrete auth state for the C10 witness: one readonly user and one
admin user. -/
def c10State : AuthState :=
  ⟨some [("ro", ⟨"x", "readonly", "RO", DashSpec.lst ["d1"]⟩),
    ("ad", ⟨"y", "admin", "AD", DashSpec.all⟩)], some 0, none, false⟩

/-- Witness for C10 at a concrete input: empty-string field arguments leave
the record unchanged; an empty-list dashboards argument IS applied to a
readonly user; a dashboards argument is ignored for an admin user. -/
theorem update_user_falsy_fields_witness :
    update_user [] c10State 0 "ro" (some "") (some "") (some "") none =
      (update_users_db (get_users_db [] c10State 0).2
        (setUser (get_users_db [] c10State 0).1 "ro"
          ⟨"x", "readonly", "RO", DashSpec.lst ["d1"]⟩) 0, true,
        "User updated successfully") ∧
    update_user [] c10State 0 "ro" none none none (some (DashSpec.lst [])) =
      (update_users_db (get_users_db [] c10State 0).2
        (setUser (get_users_db [] c10State 0).1 "ro"
          ⟨"x", "readonly", "RO", DashSpec.lst []⟩) 0, true,
        "User updated successfully") ∧
    update_user [] c10State 0 "ad" none none none
      (some (DashSpec.lst ["z"])) =
      (update_users_db (get_users_db [] c10State 0).2
        (setUser (get_users_db [] c10State 0).1 "ad"
          ⟨"y", "admin", "AD", DashSpec.all⟩) 0, true,
        "User updated successfully") :=
  ⟨(update_user_falsy_fields [] c10State 0 "ro"
      ⟨"x", "readonly", "RO", DashSpec.lst ["d1"]⟩ (DashSpec.lst [])
      (by decide)).1,
   (update_user_falsy_fields [] c10State 0 "ro"
      ⟨"x", "readonly", "RO", DashSpec.lst ["d1"]⟩ (DashSpec.lst [])
      (by decide)).2.2.1 (by decide),
   (update_user_falsy_fields [] c10State 0 "ad"
      ⟨"y", "admin", "AD", DashSpec.all⟩ (DashSpec.lst ["z"])
      (by decide)).2.2.2.1 (by decide)⟩
